import Mathlib

/-!
# Verification of the `useWallet` connection controller

Shallow embedding of `src/unnamed/part_000` (the `useWallet` React hook of
Calebux/tikka). The hook owns a `WalletState` snapshot and exposes the
operations `refresh`, `connect`, `disconnect`, `switchNetwork` and `signTx`.
All wallet-service calls (`isWalletInstalled`, `isWalletConnected`,
`getAccountAddress`, `getNetwork`, `connectWallet`, `disconnectWallet`,
`setNetwork`, `signTransaction`) are an external boundary; we model one
operation's view of that boundary as a `Gateway` record giving the outcome
(`Except String _`, the error being the thrown `Error`'s message) each call
would have during that operation. Operations are modelled as pure functions
from the previous snapshot to the next one, executed sequentially
(each operation run to completion before the next begins).
-/

namespace Tikka

/-- The `WalletState` interface (lines 20-29 of the source). -/
structure WalletState where
  address : Option String
  isConnected : Bool
  isConnecting : Bool
  isDisconnecting : Bool
  error : Option String
  isWalletAvailable : Bool
  network : Option String
  isWrongNetwork : Bool
deriving Repr, DecidableEq

/-- The initial snapshot passed to `useState` (lines 43-52). -/
def initialState : WalletState :=
  { address := none
    isConnected := false
    isConnecting := false
    isDisconnecting := false
    error := none
    isWalletAvailable := false
    network := none
    isWrongNetwork := false }

/-- Result shape of the gateway's `connectWallet()` call:
`{ success: bool, address?: string, error?: string }`. -/
structure ConnectResult where
  success : Bool
  address : Option String
  error : Option String
deriving Repr, DecidableEq

/-- The `STELLAR_CONFIG` fields the hook reads: `network` is the
human-readable label (used in the wrong-network message), and
`networkPassphrase` is the canonical identifier compared against the
wallet's reported network. The config module is outside the reviewed
core, so the controller is parameterised over it. -/
structure StellarConfig where
  network : String
  networkPassphrase : String
deriving Repr, DecidableEq

/-- One operation's view of the wallet-service boundary: for each service
call, the outcome it would have if made during this operation
(`Except.error m` models the call throwing an `Error` with message `m`). -/
structure Gateway where
  isWalletInstalled : Except String Bool
  isWalletConnected : Except String Bool
  getAccountAddress : Except String (Option String)
  getNetwork : Except String (Option String)
  connectWallet : Except String ConnectResult
  disconnectWallet : Except String Unit
  setNetwork : String → Except String Unit
  signTransaction : String → Except String String

/-- JavaScript truthiness of an optional string: truthy iff present and
non-empty (used for `result.address` in `connect`). -/
def optTruthy : Option String → Bool
  | none => false
  | some s => !s.isEmpty

/-- JavaScript `o || d` for an optional string `o`: yields `d` when `o` is
absent or the empty string (used for `result.error || "Failed to connect
wallet"`). -/
def jsOr (o : Option String) (d : String) : String :=
  match o with
  | none => d
  | some s => if s.isEmpty then d else s

/-- The gateway reads performed inside `refresh`'s `try` block
(lines 59-62): `isWalletInstalled`, `isWalletConnected`, then — only when
connected — `getAccountAddress` and `getNetwork`. The first throw aborts
the whole block. -/
def refreshReads (g : Gateway) :
    Except String (Bool × Bool × Option String × Option String) :=
  match g.isWalletInstalled with
  | .error e => .error e
  | .ok available =>
    match g.isWalletConnected with
    | .error e => .error e
    | .ok connected =>
      match (if connected then g.getAccountAddress else .ok none) with
      | .error e => .error e
      | .ok address =>
        match (if connected then g.getNetwork else .ok none) with
        | .error e => .error e
        | .ok network => .ok (available, connected, address, network)

/-- `refresh` (lines 57-82): on success replaces `isWalletAvailable`,
`isConnected`, `address`, `network`, `isWrongNetwork` and clears `error`,
spreading the rest of the previous snapshot; on a thrown gateway error it
only sets `error` to the message. -/
def refresh (cfg : StellarConfig) (g : Gateway) (prev : WalletState) :
    WalletState :=
  match refreshReads g with
  | .error e => { prev with error := some e }
  | .ok (available, connected, address, network) =>
    { prev with
      isWalletAvailable := available
      isConnected := connected
      address := address
      network := network
      isWrongNetwork :=
        connected && network.isSome && (network != some cfg.networkPassphrase)
      error := none }

/-- `connect` (lines 87-114): sets `isConnecting := true` and clears
`error`, then calls `connectWallet`. On `success` with a truthy address it
runs `refresh` (and nothing else); otherwise, or on a throw, it sets
`isConnecting := false` and `error`. -/
def connect (cfg : StellarConfig) (g : Gateway) (prev : WalletState) :
    WalletState :=
  let s1 : WalletState := { prev with isConnecting := true, error := none }
  match g.connectWallet with
  | .error e => { s1 with isConnecting := false, error := some e }
  | .ok result =>
    if result.success && optTruthy result.address then
      refresh cfg g s1
    else
      { s1 with
        isConnecting := false
        error := some (jsOr result.error "Failed to connect wallet") }

/-- `disconnect` (lines 119-145): sets `isDisconnecting := true` and clears
`error`, then calls `disconnectWallet`. On success the snapshot is reset
wholesale, keeping only `isWalletAvailable`; on a throw it sets
`isDisconnecting := false` and `error`. -/
def disconnect (g : Gateway) (prev : WalletState) : WalletState :=
  let s1 : WalletState := { prev with isDisconnecting := true, error := none }
  match g.disconnectWallet with
  | .error e => { s1 with isDisconnecting := false, error := some e }
  | .ok _ =>
    { address := none
      isConnected := false
      isConnecting := false
      isDisconnecting := false
      error := none
      isWalletAvailable := s1.isWalletAvailable
      network := none
      isWrongNetwork := false }

/-- `switchNetwork` (lines 150-160): calls `setNetwork` with the configured
passphrase and, on success, `refresh`; on a throw it only sets `error`. -/
def switchNetwork (cfg : StellarConfig) (g : Gateway) (prev : WalletState) :
    WalletState :=
  match g.setNetwork cfg.networkPassphrase with
  | .error e => { prev with error := some e }
  | .ok _ => refresh cfg g prev

/-- Outcome of a `signTx` call towards its caller: either a thrown `Error`
with the given message, or the gateway's result returned verbatim. -/
inductive SignOutcome where
  | threw (msg : String)
  | ok (result : String)
deriving Repr, DecidableEq

/-- `signTx` (lines 165-183): throws `"Wallet not connected"` when not
connected, throws the wrong-network message (with the configured label)
when `isWrongNetwork`, both before any gateway call; otherwise calls
`signTransaction`, recording `error` and rethrowing on failure, returning
the result verbatim on success. The third component counts the gateway
calls made. -/
def signTx (cfg : StellarConfig) (g : Gateway) (tx : String)
    (prev : WalletState) : WalletState × SignOutcome × Nat :=
  if !prev.isConnected then
    (prev, .threw "Wallet not connected", 0)
  else if prev.isWrongNetwork then
    (prev, .threw ("Wrong network. Please switch to " ++ cfg.network), 0)
  else
    match g.signTransaction tx with
    | .error e => ({ prev with error := some e }, .threw e, 1)
    | .ok r => (prev, .ok r, 1)

/-- One controller operation together with the gateway outcomes it sees. -/
inductive Op where
  | refresh (g : Gateway)
  | connect (g : Gateway)
  | disconnect (g : Gateway)
  | switchNetwork (g : Gateway)
  | signTx (g : Gateway) (tx : String)

/-- Sequential execution of one operation to completion. -/
def step (cfg : StellarConfig) (s : WalletState) : Op → WalletState
  | .refresh g => refresh cfg g s
  | .connect g => connect cfg g s
  | .disconnect g => disconnect g s
  | .switchNetwork g => switchNetwork cfg g s
  | .signTx g tx => (signTx cfg g tx s).1

/-- Sequential execution of a list of operations from the initial snapshot. -/
def run (cfg : StellarConfig) (ops : List Op) : WalletState :=
  ops.foldl (step cfg) initialState

/-! ## Concrete configurations, gateways and snapshots used as witnesses -/

/-- Sample configuration: label `"Testnet"`, required identifier `"REQ"`. -/
def cfgEx : StellarConfig := { network := "Testnet", networkPassphrase := "REQ" }

/-- A gateway whose every call succeeds: wallet installed and connected,
address `"G123"`, network `"REQ"`, connect succeeds with that address. -/
def gOkEx : Gateway :=
  { isWalletInstalled := .ok true
    isWalletConnected := .ok true
    getAccountAddress := .ok (some "G123")
    getNetwork := .ok (some "REQ")
    connectWallet := .ok { success := true, address := some "G123", error := none }
    disconnectWallet := .ok ()
    setNetwork := fun _ => .ok ()
    signTransaction := fun _ => .ok "signed" }

/-- A `connectWallet` result reporting failure with reason `"User rejected"`. -/
def rFailEx : ConnectResult :=
  { success := false, address := none, error := some "User rejected" }

/-- A gateway whose `connectWallet` reports `success: false` with an error. -/
def gFailEx : Gateway := { gOkEx with connectWallet := .ok rFailEx }

/-- A gateway whose `connectWallet` throws. -/
def gConnThrowEx : Gateway :=
  { gOkEx with connectWallet := .error "Network down" }

/-- A gateway whose `isWalletInstalled` throws, so `refresh` fails. -/
def gThrowEx : Gateway :=
  { gOkEx with isWalletInstalled := .error "Wallet check failed" }

/-- A gateway whose `signTransaction` throws. -/
def gSignFailEx : Gateway :=
  { gOkEx with signTransaction := fun _ => .error "User declined" }

/-- A snapshot carrying a stale error from a previous operation. -/
def staleState : WalletState := { initialState with error := some "stale" }

/-- A connected snapshot on the required network. -/
def connState : WalletState :=
  { initialState with
    isConnected := true
    address := some "G123"
    isWalletAvailable := true
    network := some "REQ" }

/-- A connected snapshot on a wrong network. -/
def wrongNetState : WalletState :=
  { connState with network := some "OTHER", isWrongNetwork := true }

/-- A snapshot with a connect operation pending. -/
def pendingState : WalletState := { initialState with isConnecting := true }

/-! ## Helper lemmas -/

/-- The §3 derivation invariant: `isWrongNetwork` holds exactly when
connected, with a known network differing from the configured identifier. -/
def wrongNetworkInv (cfg : StellarConfig) (s : WalletState) : Prop :=
  s.isWrongNetwork =
    (s.isConnected && s.network.isSome && (s.network != some cfg.networkPassphrase))

lemma refresh_wrongNetworkInv (cfg : StellarConfig) (g : Gateway)
    (prev : WalletState) (h : wrongNetworkInv cfg prev) :
    wrongNetworkInv cfg (refresh cfg g prev) := by
  cases hr : refreshReads g with
  | error e => simpa [wrongNetworkInv, refresh, hr] using h
  | ok v =>
    obtain ⟨a, c, ad, n⟩ := v
    simp [wrongNetworkInv, refresh, hr]

lemma step_wrongNetworkInv (cfg : StellarConfig) (s : WalletState) (op : Op)
    (h : wrongNetworkInv cfg s) : wrongNetworkInv cfg (step cfg s op) := by
  cases op with
  | refresh g => exact refresh_wrongNetworkInv cfg g s h
  | connect g =>
    cases hc : g.connectWallet with
    | error e => simpa [wrongNetworkInv, step, connect, hc] using h
    | ok r =>
      by_cases hb : (r.success && optTruthy r.address) = true
      · have h1 : wrongNetworkInv cfg { s with isConnecting := true, error := none } := by
          simpa [wrongNetworkInv] using h
        simpa [step, connect, hc, hb] using
          refresh_wrongNetworkInv cfg g { s with isConnecting := true, error := none } h1
      · simp only [Bool.not_eq_true] at hb
        simpa [wrongNetworkInv, step, connect, hc, hb] using h
  | disconnect g =>
    cases hd : g.disconnectWallet with
    | error e => simpa [wrongNetworkInv, step, disconnect, hd] using h
    | ok u => simp [wrongNetworkInv, step, disconnect, hd]
  | switchNetwork g =>
    cases hs : g.setNetwork cfg.networkPassphrase with
    | error e => simpa [wrongNetworkInv, step, switchNetwork, hs] using h
    | ok u =>
      simpa [step, switchNetwork, hs] using refresh_wrongNetworkInv cfg g s h
  | signTx g tx =>
    cases hc : s.isConnected with
    | false => simpa [wrongNetworkInv, step, signTx, hc] using h
    | true =>
      cases hw : s.isWrongNetwork with
      | true => simpa [wrongNetworkInv, step, signTx, hc, hw] using h
      | false =>
        cases hg : g.signTransaction tx with
        | error e => simpa [wrongNetworkInv, step, signTx, hc, hw, hg] using h
        | ok r => simpa [wrongNetworkInv, step, signTx, hc, hw, hg] using h

lemma refresh_isDisconnecting (cfg : StellarConfig) (g : Gateway)
    (prev : WalletState) :
    (refresh cfg g prev).isDisconnecting = prev.isDisconnecting := by
  cases hr : refreshReads g with
  | error e => simp [refresh, hr]
  | ok v =>
    obtain ⟨a, c, ad, n⟩ := v
    simp [refresh, hr]

lemma step_isDisconnecting_false (cfg : StellarConfig) (s : WalletState)
    (op : Op) (h : s.isDisconnecting = false) :
    (step cfg s op).isDisconnecting = false := by
  cases op with
  | refresh g => simpa [step, refresh_isDisconnecting] using h
  | connect g =>
    cases hc : g.connectWallet with
    | error e => simpa [step, connect, hc] using h
    | ok r =>
      by_cases hb : (r.success && optTruthy r.address) = true
      · simpa [step, connect, hc, hb, refresh_isDisconnecting] using h
      · simp only [Bool.not_eq_true] at hb
        simpa [step, connect, hc, hb] using h
  | disconnect g =>
    cases hd : g.disconnectWallet with
    | error e => simp [step, disconnect, hd]
    | ok u => simp [step, disconnect, hd]
  | switchNetwork g =>
    cases hs : g.setNetwork cfg.networkPassphrase with
    | error e => simpa [step, switchNetwork, hs] using h
    | ok u => simpa [step, switchNetwork, hs, refresh_isDisconnecting] using h
  | signTx g tx =>
    cases hc : s.isConnected with
    | false => simpa [step, signTx, hc] using h
    | true =>
      cases hw : s.isWrongNetwork with
      | true => simpa [step, signTx, hc, hw] using h
      | false =>
        cases hg : g.signTransaction tx with
        | error e => simpa [step, signTx, hc, hw, hg] using h
        | ok r => simpa [step, signTx, hc, hw, hg] using h

lemma foldl_wrongNetworkInv (cfg : StellarConfig) (ops : List Op) :
    ∀ s, wrongNetworkInv cfg s → wrongNetworkInv cfg (ops.foldl (step cfg) s) := by
  induction ops with
  | nil => intro s hs; simpa using hs
  | cons op rest ih =>
    intro s hs
    exact ih (step cfg s op) (step_wrongNetworkInv cfg s op hs)

lemma foldl_isDisconnecting_false (cfg : StellarConfig) (ops : List Op) :
    ∀ s, s.isDisconnecting = false →
      (ops.foldl (step cfg) s).isDisconnecting = false := by
  induction ops with
  | nil => intro s hs; simpa using hs
  | cons op rest ih =>
    intro s hs
    exact ih (step cfg s op) (step_isDisconnecting_false cfg s op hs)

/-! ## Claims -/

/-- Claim C1. The claim states that a successful `connect` (gateway result
`success = true` with a non-empty address) ends with `isConnecting = false`.
The code only runs `refresh()` on this path, and `refresh` spreads the
previous snapshot's `isConnecting`, so the flag that `connect` set to `true`
at the start is never cleared: at the concrete successful-connect input
below the final snapshot has `isConnecting = true` (while the other fields
are indeed taken from the freshly re-queried gateway state), contradicting
the claim and the spec's explicit design requirement. -/
theorem connect_success_leaves_connecting_true :
    connect cfgEx gOkEx initialState =
      { address := some "G123"
        isConnected := true
        isConnecting := true
        isDisconnecting := false
        error := none
        isWalletAvailable := true
        network := some "REQ"
        isWrongNetwork := false } := by
  rfl

/-- Claim C2. After every sequence of operations starting from the initial
snapshot, `isWrongNetwork` is true iff the snapshot is connected with a
known network that differs from the configured required identifier. -/
theorem run_preserves_wrongNetwork_inv (cfg : StellarConfig) (ops : List Op) :
    wrongNetworkInv cfg (run cfg ops) := by
  exact foldl_wrongNetworkInv cfg ops initialState (by simp [wrongNetworkInv, initialState])

/-- Claim C3. When a gateway call made inside `refresh`'s try block throws,
the resulting snapshot differs from the previous one only in `error`, which
becomes the failure message; no partial reads are applied. -/
theorem refresh_failure_sets_only_error (cfg : StellarConfig) (g : Gateway)
    (prev : WalletState) (e : String) (h : refreshReads g = .error e) :
    refresh cfg g prev = { prev with error := some e } := by
  simp [refresh, h]

/-- Witness for C3 at a gateway whose `isWalletInstalled` throws. -/
theorem refresh_failure_sets_only_error_witness :
    refreshReads gThrowEx = .error "Wallet check failed"
    ∧ refresh cfgEx gThrowEx connState =
        { connState with error := some "Wallet check failed" } :=
  ⟨rfl, refresh_failure_sets_only_error cfgEx gThrowEx connState "Wallet check failed" rfl⟩

/-- Counterexample to claim C4 as stated: `signTx` does not clear a
pre-existing `error` at the start of the operation. Starting from a
snapshot with `error = some "stale"` and `isConnected = false`, the
operation rejects before any gateway call and the stale error survives
untouched in the final snapshot. -/
theorem signTx_stale_error_not_cleared :
    signTx cfgEx gOkEx "tx" staleState =
      (staleState, SignOutcome.threw "Wallet not connected", 0)
    ∧ staleState.error = some "stale" := by
  exact ⟨rfl, rfl⟩

/-- Claim C4 as amended: for `refresh`, `connect`, `disconnect` and
`switchNetwork` the pre-call `error` never survives into the final
snapshot — the final `error` is the same as if the field had been cleared
at the start of the operation, whatever the outcome. (`signTx` is excluded:
it leaves a stale `error` untouched on its precondition failures and on
success.) -/
theorem prior_error_never_survives_snapshot_ops (cfg : StellarConfig)
    (g : Gateway) (prev : WalletState) :
    (refresh cfg g prev).error = (refresh cfg g { prev with error := none }).error
    ∧ (connect cfg g prev).error = (connect cfg g { prev with error := none }).error
    ∧ (disconnect g prev).error = (disconnect g { prev with error := none }).error
    ∧ (switchNetwork cfg g prev).error =
        (switchNetwork cfg g { prev with error := none }).error := by
  refine ⟨?_, ?_, ?_, ?_⟩
  · cases hr : refreshReads g with
    | error e => simp [refresh, hr]
    | ok v =>
      obtain ⟨a, c, ad, n⟩ := v
      simp [refresh, hr]
  · cases hc : g.connectWallet with
    | error e => simp [connect, hc]
    | ok r =>
      by_cases hb : (r.success && optTruthy r.address) = true
      · cases hr : refreshReads g with
        | error e => simp [connect, hc, hb, refresh, hr]
        | ok v =>
          obtain ⟨a, c, ad, n⟩ := v
          simp [connect, hc, hb, refresh, hr]
      · simp only [Bool.not_eq_true] at hb
        simp [connect, hc, hb]
  · cases hd : g.disconnectWallet with
    | error e => simp [disconnect, hd]
    | ok u => simp [disconnect, hd]
  · cases hs : g.setNetwork cfg.networkPassphrase with
    | error e => simp [switchNetwork, hs]
    | ok u =>
      cases hr : refreshReads g with
      | error e => simp [switchNetwork, hs, refresh, hr]
      | ok v =>
        obtain ⟨a, c, ad, n⟩ := v
        simp [switchNetwork, hs, refresh, hr]

/-- Claim C5. With `isConnected = false`, `signTx` throws
`"Wallet not connected"`, makes zero gateway calls, and returns the
snapshot unchanged; with `isConnected = true` and `isWrongNetwork = true`
it throws the wrong-network message carrying the configured human-readable
label, again with zero gateway calls and an unchanged snapshot. -/
theorem signTx_precondition_rejections (cfg : StellarConfig) (g : Gateway)
    (tx : String) (prev : WalletState) :
    (prev.isConnected = false →
      signTx cfg g tx prev = (prev, SignOutcome.threw "Wallet not connected", 0))
    ∧ (prev.isConnected = true → prev.isWrongNetwork = true →
      signTx cfg g tx prev =
        (prev, SignOutcome.threw ("Wrong network. Please switch to " ++ cfg.network), 0)) := by
  constructor
  · intro h
    simp [signTx, h]
  · intro h1 h2
    simp [signTx, h1, h2]

/-- Witness for C5 at a disconnected snapshot and at a wrong-network
snapshot, with the `"Testnet"` label appearing in the message. -/
theorem signTx_precondition_rejections_witness :
    initialState.isConnected = false
    ∧ signTx cfgEx gOkEx "tx" initialState =
        (initialState, SignOutcome.threw "Wallet not connected", 0)
    ∧ wrongNetState.isConnected = true
    ∧ wrongNetState.isWrongNetwork = true
    ∧ signTx cfgEx gOkEx "tx" wrongNetState =
        (wrongNetState, SignOutcome.threw "Wrong network. Please switch to Testnet", 0) :=
  ⟨rfl,
   (signTx_precondition_rejections cfgEx gOkEx "tx" initialState).1 rfl,
   rfl, rfl,
   (signTx_precondition_rejections cfgEx gOkEx "tx" wrongNetState).2 rfl rfl⟩

/-- Claim C6. When the gateway `disconnectWallet` call succeeds,
`disconnect` resets the snapshot — all connection fields false/null,
both pending flags false, `error` cleared — while `isWalletAvailable`
keeps its pre-call value. -/
theorem disconnect_success_resets_snapshot (g : Gateway) (prev : WalletState)
    (h : g.disconnectWallet = .ok ()) :
    disconnect g prev =
      { address := none
        isConnected := false
        isConnecting := false
        isDisconnecting := false
        error := none
        isWalletAvailable := prev.isWalletAvailable
        network := none
        isWrongNetwork := false } := by
  simp [disconnect, h]

/-- Witness for C6 at a connected snapshot with `isWalletAvailable = true`:
availability is preserved while everything else is reset. -/
theorem disconnect_success_resets_snapshot_witness :
    gOkEx.disconnectWallet = .ok ()
    ∧ disconnect gOkEx connState =
        { address := none
          isConnected := false
          isConnecting := false
          isDisconnecting := false
          error := none
          isWalletAvailable := true
          network := none
          isWrongNetwork := false } :=
  ⟨rfl, disconnect_success_resets_snapshot gOkEx connState rfl⟩

/-- Claim C7. After every sequence of operations run sequentially from the
initial snapshot, `isConnecting` and `isDisconnecting` are not both true
(indeed `isDisconnecting` is false after every completed operation). -/
theorem run_pending_flags_mutually_exclusive (cfg : StellarConfig)
    (ops : List Op) :
    ((run cfg ops).isConnecting && (run cfg ops).isDisconnecting) = false := by
  have hd : (run cfg ops).isDisconnecting = false :=
    foldl_isDisconnecting_false cfg ops initialState rfl
  simp [hd]

/-- Claim C8. When `connectWallet` reports failure or success without a
truthy address, `connect` ends with `isConnecting = false` and `error` set
to the gateway-provided reason (with the generic `"Failed to connect
wallet"` fallback when none is provided), every other field keeping its
pre-call value; when the call throws, the thrown message is recorded the
same way. -/
theorem connect_failure_paths_frame (cfg : StellarConfig) (g : Gateway)
    (prev : WalletState) :
    (∀ r, g.connectWallet = .ok r → (r.success && optTruthy r.address) = false →
      connect cfg g prev =
        { prev with
          isConnecting := false
          error := some (jsOr r.error "Failed to connect wallet") })
    ∧ (∀ e, g.connectWallet = .error e →
      connect cfg g prev = { prev with isConnecting := false, error := some e }) := by
  constructor
  · intro r hr hb
    simp [connect, hr, hb]
  · intro e he
    simp [connect, he]

/-- Witness for C8 at a reported failure (`"User rejected"`) and at a
thrown failure (`"Network down"`), both from a connected snapshot whose
other fields survive unchanged. -/
theorem connect_failure_paths_frame_witness :
    gFailEx.connectWallet = .ok rFailEx
    ∧ (rFailEx.success && optTruthy rFailEx.address) = false
    ∧ connect cfgEx gFailEx connState =
        { connState with isConnecting := false, error := some "User rejected" }
    ∧ gConnThrowEx.connectWallet = .error "Network down"
    ∧ connect cfgEx gConnThrowEx connState =
        { connState with isConnecting := false, error := some "Network down" } :=
  ⟨rfl, rfl,
   (connect_failure_paths_frame cfgEx gFailEx connState).1 rFailEx rfl rfl,
   rfl,
   (connect_failure_paths_frame cfgEx gConnThrowEx connState).2 "Network down" rfl⟩

/-- Claim C9. When `signTx`'s preconditions hold (connected, right
network): a thrown gateway signing call sets `error` to its message and
rethrows it to the caller; a successful call returns the gateway's result
verbatim with the snapshot — in particular `error` — untouched. -/
theorem signTx_gateway_outcome_paths (cfg : StellarConfig) (g : Gateway)
    (tx : String) (prev : WalletState) (h1 : prev.isConnected = true)
    (h2 : prev.isWrongNetwork = false) :
    (∀ e, g.signTransaction tx = .error e →
      signTx cfg g tx prev = ({ prev with error := some e }, SignOutcome.threw e, 1))
    ∧ (∀ r, g.signTransaction tx = .ok r →
      signTx cfg g tx prev = (prev, SignOutcome.ok r, 1)) := by
  constructor
  · intro e he
    simp [signTx, h1, h2, he]
  · intro r hr
    simp [signTx, h1, h2, hr]

/-- Witness for C9 at a connected, right-network snapshot, for both a
throwing and a succeeding gateway signing call. -/
theorem signTx_gateway_outcome_paths_witness :
    connState.isConnected = true
    ∧ connState.isWrongNetwork = false
    ∧ gSignFailEx.signTransaction "tx" = .error "User declined"
    ∧ signTx cfgEx gSignFailEx "tx" connState =
        ({ connState with error := some "User declined" },
         SignOutcome.threw "User declined", 1)
    ∧ gOkEx.signTransaction "tx" = .ok "signed"
    ∧ signTx cfgEx gOkEx "tx" connState = (connState, SignOutcome.ok "signed", 1) :=
  ⟨rfl, rfl, rfl,
   (signTx_gateway_outcome_paths cfgEx gSignFailEx "tx" connState rfl rfl).1
     "User declined" rfl,
   rfl,
   (signTx_gateway_outcome_paths cfgEx gOkEx "tx" connState rfl rfl).2 "signed" rfl⟩

/-- Claim C10. A successful `refresh` replaces exactly
`isWalletAvailable`, `isConnected`, `address`, `network`, `isWrongNetwork`
and `error`, carrying every other field — in particular `isConnecting` and
`isDisconnecting` — over from the previous snapshot. -/
theorem refresh_success_preserves_pending_flags (cfg : StellarConfig)
    (g : Gateway) (prev : WalletState) (available connected : Bool)
    (address network : Option String)
    (h : refreshReads g = .ok (available, connected, address, network)) :
    refresh cfg g prev =
      { prev with
        isWalletAvailable := available
        isConnected := connected
        address := address
        network := network
        isWrongNetwork :=
          connected && network.isSome && (network != some cfg.networkPassphrase)
        error := none } := by
  simp [refresh, h]

/-- Witness for C10 at a snapshot with `isConnecting = true`: the flag
survives a successful `refresh` unchanged. -/
theorem refresh_success_preserves_pending_flags_witness :
    refreshReads gOkEx = .ok (true, true, some "G123", some "REQ")
    ∧ refresh cfgEx gOkEx pendingState =
        { address := some "G123"
          isConnected := true
          isConnecting := true
          isDisconnecting := false
          error := none
          isWalletAvailable := true
          network := some "REQ"
          isWrongNetwork := false } :=
  ⟨rfl,
   refresh_success_preserves_pending_flags cfgEx gOkEx pendingState true true
     (some "G123") (some "REQ") rfl⟩

end Tikka
